import Mathlib

/-!
Shallow embedding of the vanish-ts client (src/vanish.ts): a typed wrapper
around a temporary-email HTTP API.  Pure request construction (URL, query
string, headers, body serialization), response/error mapping, timestamp
normalization and the polling loop are modelled as Lean functions; the
remote endpoint is abstracted as an oracle giving each call its outcome.
-/

set_option maxRecDepth 4000

/-- A JavaScript/JSON value as it appears after JSON.parse: null, booleans,
numbers (the server sends integers; modelled as Int), strings, arrays and
objects with ordered fields. -/
inductive Json where
  | null : Json
  | bool (b : Bool) : Json
  | num (n : Int) : Json
  | str (s : String) : Json
  | arr (elems : List Json) : Json
  | obj (fields : List (String × Json)) : Json

/-- JavaScript truthiness of a parsed JSON value: null, false, 0 and the
empty string are falsy; every array and object is truthy. -/
def jsTruthy : Json → Bool
  | .null => false
  | .bool b => b
  | .num n => n != 0
  | .str s => s != ""
  | .arr _ => true
  | .obj _ => true

mutual
/-- JavaScript ToString of a parsed JSON value (used when a non-string
error field is passed to the Error constructor). -/
def jsToString : Json → String
  | .null => "null"
  | .bool b => if b then "true" else "false"
  | .num n => toString n
  | .str s => s
  | .arr xs => jsToStringElems xs
  | .obj _ => "[object Object]"

/-- Array.prototype.toString joins the elements with commas; a null element
contributes the empty string. -/
def jsToStringElems : List Json → String
  | [] => ""
  | [x] => match x with
    | .null => ""
    | x => jsToString x
  | x :: y :: rest =>
    (match x with
     | .null => ""
     | x => jsToString x) ++ "," ++ jsToStringElems (y :: rest)
end

/-- JavaScript property access j.key: the field value on an object whose
field list contains key, undefined (none) otherwise.  Reading a property
of a primitive also yields undefined; the TypeError thrown on null is
caught by the same catch block as a parse failure in the code modelled
here, so mapping it to none preserves the observable behaviour. -/
def jsGetField (j : Json) (key : String) : Option Json :=
  match j with
  | .obj fields => fields.lookup key
  | _ => none

/-- Hexadecimal digit, uppercase (used by percent-encoding). -/
def hexDigitUpper (n : Nat) : Char :=
  if n < 10 then Char.ofNat (48 + n) else Char.ofNat (55 + n)

/-- Percent-encoding of one byte value, e.g. 47 to "%2F". -/
def percentByte (n : Nat) : String :=
  String.mk ['%', hexDigitUpper (n / 16), hexDigitUpper (n % 16)]

/-- UTF-8 bytes of one character, as byte values. -/
def utf8Bytes (c : Char) : List Nat :=
  let n := c.toNat
  if n < 128 then [n]
  else if n < 2048 then [192 + n / 64, 128 + n % 64]
  else if n < 65536 then [224 + n / 4096, 128 + (n / 64) % 64, 128 + n % 64]
  else [240 + n / 262144, 128 + (n / 4096) % 64, 128 + (n / 64) % 64, 128 + n % 64]

/-- Characters left unescaped by JavaScript encodeURIComponent:
A-Z a-z 0-9 - _ . ! ~ * ( ) and the apostrophe (code 39). -/
def isUriUnreserved (c : Char) : Bool :=
  c.isAlphanum || c = '-' || c = '_' || c = '.' || c = '!' || c = '~' ||
    c = '*' || c.toNat = 39 || c = '(' || c = ')'

/-- JavaScript encodeURIComponent: unreserved characters pass through,
every other character becomes the percent-encoding of its UTF-8 bytes. -/
def encodeURIComponent (s : String) : String :=
  String.join (s.data.map (fun c =>
    if isUriUnreserved c then String.singleton c
    else String.join ((utf8Bytes c).map percentByte)))

/-- Characters left unescaped by URLSearchParams serialization
(application/x-www-form-urlencoded): A-Z a-z 0-9 * - . _ . -/
def isFormUnreserved (c : Char) : Bool :=
  c.isAlphanum || c = '*' || c = '-' || c = '.' || c = '_'

/-- URLSearchParams component serialization: space becomes +, unreserved
characters pass through, the rest are percent-encoded UTF-8 bytes. -/
def formUrlEncode (s : String) : String :=
  String.join (s.data.map (fun c =>
    if c = ' ' then "+"
    else if isFormUnreserved c then String.singleton c
    else String.join ((utf8Bytes c).map percentByte)))

/-- Hexadecimal digit, lowercase (used by JSON string \u escapes). -/
def hexDigitLower (n : Nat) : Char :=
  if n < 10 then Char.ofNat (48 + n) else Char.ofNat (87 + n)

/-- JSON.stringify escaping of one character inside a string literal. -/
def escapeJsonChar (c : Char) : String :=
  if c = Char.ofNat 34 then String.mk [Char.ofNat 92, Char.ofNat 34]
  else if c = Char.ofNat 92 then String.mk [Char.ofNat 92, Char.ofNat 92]
  else if c.toNat = 10 then String.mk [Char.ofNat 92, 'n']
  else if c.toNat = 9 then String.mk [Char.ofNat 92, 't']
  else if c.toNat = 13 then String.mk [Char.ofNat 92, 'r']
  else if c.toNat = 8 then String.mk [Char.ofNat 92, 'b']
  else if c.toNat = 12 then String.mk [Char.ofNat 92, 'f']
  else if c.toNat < 32 then
    String.mk [Char.ofNat 92, 'u', '0', '0',
      hexDigitLower (c.toNat / 16), hexDigitLower (c.toNat % 16)]
  else String.singleton c

/-- JSON string literal: double quotes around the escaped characters. -/
def quoteJsonString (s : String) : String :=
  String.singleton (Char.ofNat 34) ++
    String.join (s.data.map escapeJsonChar) ++ String.singleton (Char.ofNat 34)

mutual
/-- JSON.stringify of a parsed JSON value. -/
def jsonSerialize : Json → String
  | .null => "null"
  | .bool b => if b then "true" else "false"
  | .num n => toString n
  | .str s => quoteJsonString s
  | .arr xs => "[" ++ jsonSerializeElems xs ++ "]"
  | .obj fs => "\x7b" ++ jsonSerializeFields fs ++ "\x7d"

/-- Comma-separated serialization of array elements. -/
def jsonSerializeElems : List Json → String
  | [] => ""
  | [x] => jsonSerialize x
  | x :: y :: rest => jsonSerialize x ++ "," ++ jsonSerializeElems (y :: rest)

/-- Comma-separated serialization of object fields. -/
def jsonSerializeFields : List (String × Json) → String
  | [] => ""
  | [(k, v)] => quoteJsonString k ++ ":" ++ jsonSerialize v
  | (k, v) :: f :: rest =>
    quoteJsonString k ++ ":" ++ jsonSerialize v ++ "," ++
      jsonSerializeFields (f :: rest)
end

/-- The error type thrown by the client (class VanishError, src/vanish.ts
lines 58-66): a message and an optional numeric HTTP status code. -/
structure VanishError where
  message : String
  statusCode : Option Nat
deriving DecidableEq, Repr

/-- Client construction options (interface VanishClientOptions). -/
structure VanishClientOptions where
  apiKey : Option String := none
  timeout : Option Nat := none
deriving DecidableEq, Repr

/-- The immutable state a VanishClient captures (src/vanish.ts lines 86-88). -/
structure VanishClient where
  baseUrl : String
  apiKey : Option String
  timeout : Nat
deriving DecidableEq, Repr

/-- The constructor strips one trailing slash: baseUrl.replace of the
regex matching a final slash (src/vanish.ts line 91). -/
def stripTrailingSlash (s : String) : String :=
  if s.endsWith "/" then s.dropRight 1 else s

/-- VanishClient constructor (src/vanish.ts lines 90-94): trailing slash
stripped, apiKey taken as given, timeout defaulted to 30000. -/
def mkVanishClient (baseUrl : String) (options : VanishClientOptions) : VanishClient :=
  { baseUrl := stripTrailingSlash baseUrl
  , apiKey := options.apiKey
  , timeout := options.timeout.getD 30000 }

/-- A query-parameter value as typed in the code:
string | number | undefined. -/
inductive ParamVal where
  | str (s : String)
  | num (n : Int)
  | undefined
deriving DecidableEq, Repr

/-- JavaScript String(v) applied to a defined parameter value
(src/vanish.ts line 131). -/
def paramString : ParamVal → String
  | .str s => s
  | .num n => toString n
  | .undefined => "undefined"

/-- Whether a parameter value is defined (v !== undefined). -/
def isDefinedParam : ParamVal → Bool
  | .undefined => false
  | _ => true

/-- The filter on query-parameter entries (src/vanish.ts lines 126-128):
entries whose value is undefined are dropped. -/
def queryEntries (ps : List (String × ParamVal)) : List (String × ParamVal) :=
  ps.filter (fun p => isDefinedParam p.2)

/-- URLSearchParams serialization of the filtered entries, joined k=v with
ampersands, keys and values form-url-encoded (src/vanish.ts lines 130-132). -/
def renderSearchParams (ps : List (String × ParamVal)) : String :=
  String.intercalate "&" (ps.map (fun p =>
    formUrlEncode p.1 ++ "=" ++ formUrlEncode (paramString p.2)))

/-- URL construction (src/vanish.ts lines 123-135): base url plus path; a
question mark and the serialized query are appended only when at least one
entry survives the undefined filter. -/
def mkUrl (baseUrl path : String) (params : Option (List (String × ParamVal))) : String :=
  let url := baseUrl ++ path
  match params with
  | none => url
  | some ps =>
    let filtered := queryEntries ps
    if filtered.length > 0 then url ++ "?" ++ renderSearchParams filtered
    else url

/-- JavaScript truthiness of the optional apiKey string: an absent key and
the empty string are falsy (the if guard at src/vanish.ts line 140). -/
def apiKeyTruthy : Option String → Bool
  | none => false
  | some s => s != ""

/-- Header construction (src/vanish.ts lines 137-142): Content-Type always,
Authorization Bearer only when this.apiKey is truthy. -/
def buildHeaders (apiKey : Option String) : List (String × String) :=
  let base := [("Content-Type", "application/json")]
  if apiKeyTruthy apiKey then
    base ++ [("Authorization", "Bearer " ++ apiKey.getD "")]
  else base

/-- The outgoing HTTP request the client hands to fetch: method, full url,
header list, and the serialized body when one is sent. -/
structure RequestSpec where
  method : String
  url : String
  headers : List (String × String)
  body : Option String
deriving DecidableEq, Repr

/-- Request construction (src/vanish.ts lines 114-152): url with filtered
query string, headers with optional bearer token, and the body serialized
by JSON.stringify only when options.body is truthy. -/
def mkRequest (client : VanishClient) (method path : String)
    (params : Option (List (String × ParamVal))) (body : Option Json) : RequestSpec :=
  { method := method
  , url := mkUrl client.baseUrl path params
  , headers := buildHeaders client.apiKey
  , body :=
      match body with
      | some b => if jsTruthy b then some (jsonSerialize b) else none
      | none => none }

/-- Outcome of one fetch call as the client observes it: a response with
status, status text and the result of reading the body as JSON (the error
side of the Except is the thrown parse-failure description), or the abort
DOMException fired by the timeout, or any other thrown failure with its
string description. -/
inductive FetchOutcome where
  | response (status : Nat) (statusText : String) (jsonBody : Except String Json)
  | abort
  | failure (description : String)

/-- Whether JavaScript response.ok holds: status in the range 200-299. -/
def responseOk (status : Nat) : Bool :=
  200 ≤ status && status ≤ 299

/-- Message of the error thrown on a non-ok response (src/vanish.ts lines
155-162): the parsed error body's error field when present and truthy,
otherwise the status text; a body that is absent or fails to parse also
falls back to the status text. -/
def errorResponseMessage (parsed : Option Json) (statusText : String) : String :=
  match parsed with
  | none => statusText
  | some body =>
    match jsGetField body "error" with
    | some v => if jsTruthy v then jsToString v else statusText
    | none => statusText

/-- The VanishError thrown on a non-ok response (src/vanish.ts line 163):
the message above together with the numeric status. -/
def nonOkError (status : Nat) (statusText : String) (parsed : Option Json) : VanishError :=
  { message := errorResponseMessage parsed statusText, statusCode := some status }

/-- The request primitive's result in parsed-JSON mode as a function of the
fetch outcome (src/vanish.ts lines 147-179): ok responses yield the parsed
body, non-ok responses yield the nonOkError, a body parse failure on an ok
response reaches the outer catch and is wrapped, the abort exception maps
to the fixed timeout error, and any other failure is wrapped with its
description; both wrapped cases carry no status code. -/
def requestResult (outcome : FetchOutcome) : Except VanishError Json :=
  match outcome with
  | .response status statusText jsonBody =>
    if responseOk status then
      match jsonBody with
      | .ok j => .ok j
      | .error d => .error { message := "Request failed: " ++ d, statusCode := none }
    else .error (nonOkError status statusText jsonBody.toOption)
  | .abort => .error { message := "Request timeout", statusCode := none }
  | .failure d => .error { message := "Request failed: " ++ d, statusCode := none }

/-- Options accepted by listEmails (interface ListEmailsOptions). -/
structure ListEmailsOptions where
  limit : Option Int := none
  cursor : Option String := none
deriving DecidableEq, Repr

/-- An optional number passed as a query-parameter value: undefined when
absent. -/
def optNumParam : Option Int → ParamVal
  | some n => .num n
  | none => .undefined

/-- An optional string passed as a query-parameter value: undefined when
absent. -/
def optStrParam : Option String → ParamVal
  | some s => .str s
  | none => .undefined

/-- The request listEmails issues (src/vanish.ts lines 197-217): GET on
/mailbox/ followed by the percent-encoded address, with limit and cursor
as query parameters (undefined when not supplied), no body. -/
def listEmailsRequest (client : VanishClient) (address : String)
    (options : ListEmailsOptions) : RequestSpec :=
  mkRequest client "GET" ("/mailbox/" ++ encodeURIComponent address)
    (some [("limit", optNumParam options.limit), ("cursor", optStrParam options.cursor)])
    none

/-- The request getEmail issues (src/vanish.ts line 241): GET on /email/
followed by the id verbatim, no query parameters, no body. -/
def getEmailRequest (client : VanishClient) (emailId : String) : RequestSpec :=
  mkRequest client "GET" ("/email/" ++ emailId) none none

/-- The request getAttachment issues (src/vanish.ts line 254): GET on the
attachment path with both ids inlined verbatim. -/
def getAttachmentRequest (client : VanishClient) (emailId attachmentId : String) : RequestSpec :=
  mkRequest client "GET"
    ("/email/" ++ emailId ++ "/attachments/" ++ attachmentId) none none

/-- The request deleteEmail issues (src/vanish.ts line 263): DELETE on
/email/ followed by the id verbatim. -/
def deleteEmailRequest (client : VanishClient) (emailId : String) : RequestSpec :=
  mkRequest client "DELETE" ("/email/" ++ emailId) none none

/-- The request deleteMailbox issues (src/vanish.ts line 273): DELETE on
/mailbox/ followed by the percent-encoded address. -/
def deleteMailboxRequest (client : VanishClient) (address : String) : RequestSpec :=
  mkRequest client "DELETE" ("/mailbox/" ++ encodeURIComponent address) none none

/-- The request getDomains issues (src/vanish.ts line 184): GET /domains,
no query parameters, no body. -/
def getDomainsRequest (client : VanishClient) : RequestSpec :=
  mkRequest client "GET" "/domains" none none

/-- Options accepted by generateEmail (interface GenerateEmailOptions);
the source field named after the local part is called prefixOpt here
because its source name is reserved in Lean. -/
structure GenerateEmailOptions where
  domain : Option String := none
  prefixOpt : Option String := none
deriving DecidableEq, Repr

/-- Object.keys of the options object: the names of the fields that are
present. -/
def generateOptionsKeys (o : GenerateEmailOptions) : List String :=
  (match o.domain with | some _ => ["domain"] | none => []) ++
    (match o.prefixOpt with | some _ => ["prefix"] | none => [])

/-- The options object as a JSON value, fields in declaration order. -/
def generateOptionsJson (o : GenerateEmailOptions) : Json :=
  Json.obj
    ((match o.domain with | some d => [("domain", Json.str d)] | none => []) ++
      (match o.prefixOpt with | some p => [("prefix", Json.str p)] | none => []))

/-- The request generateEmail issues (src/vanish.ts lines 189-192): POST
/mailbox with the options object as body only when Object.keys(options)
is non-empty, undefined body otherwise. -/
def generateEmailRequest (client : VanishClient) (o : GenerateEmailOptions) : RequestSpec :=
  mkRequest client "POST" "/mailbox" none
    (if (generateOptionsKeys o).length > 0 then some (generateOptionsJson o) else none)

/-- What generateEmail returns from the parsed response (src/vanish.ts
line 193): the email property of the response object. -/
def generateEmailValue (resp : Json) : Option Json :=
  jsGetField resp "email"

/-- A JavaScript Date value: a count of milliseconds since the Unix epoch,
or the invalid date (NaN time value). -/
inductive JSDate where
  | valid (ms : Int)
  | invalid
deriving DecidableEq, Repr

/-- Numeric value of a list of decimal digit characters. -/
def digitsToNat (cs : List Char) : Nat :=
  cs.foldl (fun acc c => acc * 10 + (c.toNat - 48)) 0

/-- Gregorian leap-year rule. -/
def isLeapYear (y : Nat) : Bool :=
  (y % 4 = 0 && y % 100 ≠ 0) || y % 400 = 0

/-- Days in a month of a given year (months numbered 1-12). -/
def daysInMonth (y m : Nat) : Nat :=
  if m = 1 || m = 3 || m = 5 || m = 7 || m = 8 || m = 10 || m = 12 then 31
  else if m = 4 || m = 6 || m = 9 || m = 11 then 30
  else if m = 2 then (if isLeapYear y then 29 else 28)
  else 0

/-- Days in a year. -/
def daysInYear (y : Nat) : Nat :=
  if isLeapYear y then 366 else 365

/-- Days from 1970-01-01 to the start of year y, summed year by year. -/
def daysBeforeYear (y : Nat) : Nat :=
  ((List.range (y - 1970)).map (fun i => daysInYear (1970 + i))).sum

/-- Days from the start of year y to the start of month m, summed month by
month. -/
def daysBeforeMonth (y m : Nat) : Nat :=
  ((List.range (m - 1)).map (fun i => daysInMonth y (1 + i))).sum

/-- Days from 1970-01-01 to the civil date y-m-d. -/
def epochDays (y m d : Nat) : Nat :=
  daysBeforeYear y + daysBeforeMonth y m + (d - 1)

/-- The Date time value of a civil UTC datetime, with calendar-range
validation: out-of-range components give the invalid date. -/
def mkEpochDate (y m d h mi sec ms : Nat) : JSDate :=
  if 1970 ≤ y && 1 ≤ m && m ≤ 12 && 1 ≤ d && d ≤ daysInMonth y m &&
      h ≤ 23 && mi ≤ 59 && sec ≤ 59 && ms ≤ 999 then
    JSDate.valid (Int.ofNat ((((epochDays y m d * 24 + h) * 60 + mi) * 60 + sec) * 1000 + ms))
  else JSDate.invalid

/-- Modelled subset of the JavaScript Date constructor's string parsing,
covering the ISO-8601 UTC forms the server sends, YYYY-MM-DDTHH:MM:SS.sssZ
and YYYY-MM-DDTHH:MM:SSZ, for years 1970 onward; every other input yields
the invalid date. -/
def parseDateString (s : String) : JSDate :=
  match s.data with
  | [y1, y2, y3, y4, a1, m1, m2, a2, d1, d2, tc, h1, h2, b1, i1, i2, b2, s1, s2, dc, e1, e2, e3, zc] =>
    if [y1, y2, y3, y4, m1, m2, d1, d2, h1, h2, i1, i2, s1, s2, e1, e2, e3].all Char.isDigit &&
        a1 = '-' && a2 = '-' && tc = 'T' && b1 = ':' && b2 = ':' && dc = '.' && zc = 'Z' then
      mkEpochDate (digitsToNat [y1, y2, y3, y4]) (digitsToNat [m1, m2])
        (digitsToNat [d1, d2]) (digitsToNat [h1, h2]) (digitsToNat [i1, i2])
        (digitsToNat [s1, s2]) (digitsToNat [e1, e2, e3])
    else JSDate.invalid
  | [y1, y2, y3, y4, a1, m1, m2, a2, d1, d2, tc, h1, h2, b1, i1, i2, b2, s1, s2, zc] =>
    if [y1, y2, y3, y4, m1, m2, d1, d2, h1, h2, i1, i2, s1, s2].all Char.isDigit &&
        a1 = '-' && a2 = '-' && tc = 'T' && b1 = ':' && b2 = ':' && zc = 'Z' then
      mkEpochDate (digitsToNat [y1, y2, y3, y4]) (digitsToNat [m1, m2])
        (digitsToNat [d1, d2]) (digitsToNat [h1, h2]) (digitsToNat [i1, i2])
        (digitsToNat [s1, s2]) 0
    else JSDate.invalid
  | _ => JSDate.invalid

/-- Argument to the Date constructor as the client uses it: a wire string,
or an existing Date value (re-normalization). -/
inductive DateInput where
  | fromString (s : String)
  | fromDate (d : JSDate)

/-- The Date constructor: parses a string input; given an existing Date it
clones it, keeping the same time value. -/
def jsNewDate : DateInput → JSDate
  | .fromString s => parseDateString s
  | .fromDate d => d

/-- Modelled from the spec: the number of Gregorian leap years in 1..y-1
by the closed-form count, used as an independent specification of the
calendar, not shared with the parsing pipeline above. -/
def specLeapYearsBefore (y : Nat) : Nat :=
  (y - 1) / 4 - (y - 1) / 100 + (y - 1) / 400

/-- Modelled from the spec: cumulative days before month m from a fixed
table plus the leap-day adjustment. -/
def specDaysBeforeMonth (y m : Nat) : Nat :=
  [0, 0, 31, 59, 90, 120, 151, 181, 212, 243, 273, 304, 334].getD m 0 +
    (if 3 ≤ m && isLeapYear y then 1 else 0)

/-- Modelled from the spec: the instant (epoch milliseconds) denoted by a
civil UTC datetime, via the closed-form day count; the specification
against which the normalized timestamp is compared. -/
def specEpochMs (y m d h mi sec ms : Nat) : Int :=
  Int.ofNat
    (((((365 * (y - 1970) + (specLeapYearsBefore y - specLeapYearsBefore 1970) +
        specDaysBeforeMonth y m + (d - 1)) * 24 + h) * 60 + mi) * 60 + sec) * 1000 + ms)

/-- Email summary as on the wire: receivedAt is a string (src/vanish.ts
lines 202-209).  Field names follow the source; from is renamed fromAddr
because it is reserved in Lean. -/
structure RawEmailSummary where
  id : String
  fromAddr : String
  subject : String
  textPreview : String
  receivedAt : String
  hasAttachments : Bool
deriving DecidableEq, Repr

/-- Email summary returned to the caller: receivedAt is a Date
(interface EmailSummary). -/
structure EmailSummary where
  id : String
  fromAddr : String
  subject : String
  textPreview : String
  receivedAt : JSDate
  hasAttachments : Bool
deriving DecidableEq, Repr

/-- The per-element normalization listEmails applies (src/vanish.ts lines
220-223): spread the element and replace receivedAt by new Date of it. -/
def normalizeSummary (e : RawEmailSummary) : EmailSummary :=
  { id := e.id
  , fromAddr := e.fromAddr
  , subject := e.subject
  , textPreview := e.textPreview
  , receivedAt := jsNewDate (.fromString e.receivedAt)
  , hasAttachments := e.hasAttachments }

/-- Paginated list as on the wire (src/vanish.ts lines 201-211). -/
structure RawPaginatedEmailList where
  data : List RawEmailSummary
  nextCursor : Option String
  total : Nat
deriving DecidableEq, Repr

/-- Paginated list returned to the caller (interface PaginatedEmailList). -/
structure PaginatedEmailList where
  data : List EmailSummary
  nextCursor : Option String
  total : Nat
deriving DecidableEq, Repr

/-- The response shaping listEmails applies (src/vanish.ts lines 219-226):
map the normalization over data, pass nextCursor and total through. -/
def listEmailsNormalize (r : RawPaginatedEmailList) : PaginatedEmailList :=
  { data := r.data.map normalizeSummary
  , nextCursor := r.nextCursor
  , total := r.total }

/-- Attachment metadata (interface AttachmentMeta). -/
structure AttachmentMeta where
  id : String
  name : String
  type : String
  size : Nat
deriving DecidableEq, Repr

/-- Full email as on the wire: receivedAt is a string (src/vanish.ts lines
231-240). -/
structure RawEmailDetail where
  id : String
  fromAddr : String
  toAddrs : List String
  subject : String
  html : String
  text : String
  receivedAt : String
  hasAttachments : Bool
  attachments : List AttachmentMeta
deriving DecidableEq, Repr

/-- Full email returned to the caller (interface EmailDetail). -/
structure EmailDetail where
  id : String
  fromAddr : String
  toAddrs : List String
  subject : String
  html : String
  text : String
  receivedAt : JSDate
  hasAttachments : Bool
  attachments : List AttachmentMeta
deriving DecidableEq, Repr

/-- The response shaping getEmail applies (src/vanish.ts lines 243-246):
spread the response and replace receivedAt by new Date of it. -/
def normalizeDetail (e : RawEmailDetail) : EmailDetail :=
  { id := e.id
  , fromAddr := e.fromAddr
  , toAddrs := e.toAddrs
  , subject := e.subject
  , html := e.html
  , text := e.text
  , receivedAt := jsNewDate (.fromString e.receivedAt)
  , hasAttachments := e.hasAttachments
  , attachments := e.attachments }

/-- What one run of pollForEmails did: its result (the thrown VanishError,
or the returned summary or null), the options object passed to each
listEmails call in order, and how many interval sleeps were performed. -/
structure PollResult where
  result : Except VanishError (Option EmailSummary)
  log : List ListEmailsOptions
  sleeps : Nat
deriving Repr

/-- The polling loop of pollForEmails (src/vanish.ts lines 292-302) over a
discrete time model: each listEmails call is instantaneous and each sleep
advances the clock by interval.  The oracle gives the k-th listEmails call
its outcome: the decoded wire response (normalized here exactly as
listEmails normalizes it) or the VanishError that call threw.  While the
clock is before the deadline: call listEmails with limit 1; a thrown error
propagates at once; a response whose total exceeds initialCount and whose
data is non-empty returns its first item; otherwise sleep one interval and
loop.  Once the clock reaches the deadline the loop returns null. -/
def pollGo (oracle : Nat → Except VanishError RawPaginatedEmailList)
    (initialCount interval : Nat) (hI : 0 < interval)
    (deadline k t : Nat) : PollResult :=
  if _h : t < deadline then
    match oracle k with
    | .error e => { result := .error e, log := [{ limit := some 1 }], sleeps := 0 }
    | .ok raw =>
      let result := listEmailsNormalize raw
      if initialCount < result.total ∧ 0 < result.data.length then
        { result := .ok result.data.head?, log := [{ limit := some 1 }], sleeps := 0 }
      else
        let rest := pollGo oracle initialCount interval hI deadline (k + 1) (t + interval)
        { result := rest.result
        , log := { limit := some 1 } :: rest.log
        , sleeps := rest.sleeps + 1 }
  else { result := .ok none, log := [], sleeps := 0 }
termination_by deadline - t
decreasing_by omega

/-- pollForEmails (src/vanish.ts lines 286-303): deadline is the entry
clock now0 plus timeout; the loop starts at call index 0.  The source
defaults are timeout 60000, interval 5000, initialCount 0. -/
def pollForEmails (oracle : Nat → Except VanishError RawPaginatedEmailList)
    (timeout interval : Nat) (hI : 0 < interval)
    (initialCount now0 : Nat) : PollResult :=
  pollGo oracle initialCount interval hI (now0 + timeout) 0 now0

/-- Fixture: a raw summary used to evaluate the polling theorems on a
concrete input. -/
def sampleRawSummary : RawEmailSummary :=
  { id := "m1", fromAddr := "sender@example.com", subject := "hello"
  , textPreview := "hi", receivedAt := "2024-01-01T00:00:00.000Z"
  , hasAttachments := false }

/-- Fixture: an endpoint that reports no new mail on the first two checks,
then one new message on the third. -/
def sampleHitOracle : Nat → Except VanishError RawPaginatedEmailList :=
  fun k =>
    if k < 2 then .ok { data := [], nextCursor := none, total := 0 }
    else .ok { data := [sampleRawSummary], nextCursor := none, total := 1 }

/-- Fixture: an endpoint that always reports the same total and no items. -/
def sampleEmptyOracle : Nat → Except VanishError RawPaginatedEmailList :=
  fun _ => .ok { data := [], nextCursor := none, total := 5 }

/-- Fixture: an endpoint that reports no new mail once, then throws. -/
def sampleErrorOracle : Nat → Except VanishError RawPaginatedEmailList :=
  fun k =>
    if k = 0 then .ok { data := [], nextCursor := none, total := 0 }
    else .error { message := "Request failed: socket hang up", statusCode := none }

/-- Unfolding pollGo past the deadline: the loop exits with null, no calls,
no sleeps. -/
theorem pollGo_stop (oracle : Nat → Except VanishError RawPaginatedEmailList)
    (c I : Nat) (hI : 0 < I) (deadline k t : Nat) (h : ¬ t < deadline) :
    pollGo oracle c I hI deadline k t = { result := .ok none, log := [], sleeps := 0 } := by
  rw [pollGo]
  simp [h]

/-- Unfolding pollGo at a check that throws: the error propagates with one
call and no further sleep. -/
theorem pollGo_error (oracle : Nat → Except VanishError RawPaginatedEmailList)
    (c I : Nat) (hI : 0 < I) (deadline k t : Nat) (h : t < deadline)
    (e : VanishError) (he : oracle k = .error e) :
    pollGo oracle c I hI deadline k t =
      { result := .error e, log := [{ limit := some 1 }], sleeps := 0 } := by
  rw [pollGo]
  simp [h, he]

/-- Unfolding pollGo at a qualifying check: the first item of the
normalized response is returned with one call and no further sleep. -/
theorem pollGo_hit (oracle : Nat → Except VanishError RawPaginatedEmailList)
    (c I : Nat) (hI : 0 < I) (deadline k t : Nat) (h : t < deadline)
    (raw : RawPaginatedEmailList) (ho : oracle k = .ok raw)
    (htot : c < raw.total) (hne : 0 < raw.data.length) :
    pollGo oracle c I hI deadline k t =
      { result := .ok ((listEmailsNormalize raw).data.head?)
      , log := [{ limit := some 1 }], sleeps := 0 } := by
  rw [pollGo]
  have hlen : 0 < (listEmailsNormalize raw).data.length := by
    simp [listEmailsNormalize, hne]
  have htot2 : c < (listEmailsNormalize raw).total := by
    simp [listEmailsNormalize, htot]
  simp [h, ho, htot2, hlen]

/-- Unfolding pollGo at a non-qualifying check: one call, one sleep, then
the loop continues at the next call index and time. -/
theorem pollGo_miss (oracle : Nat → Except VanishError RawPaginatedEmailList)
    (c I : Nat) (hI : 0 < I) (deadline k t : Nat) (h : t < deadline)
    (raw : RawPaginatedEmailList) (ho : oracle k = .ok raw)
    (hmiss : ¬ (c < raw.total ∧ 0 < raw.data.length)) :
    pollGo oracle c I hI deadline k t =
      { result := (pollGo oracle c I hI deadline (k + 1) (t + I)).result
      , log := { limit := some 1 } :: (pollGo oracle c I hI deadline (k + 1) (t + I)).log
      , sleeps := (pollGo oracle c I hI deadline (k + 1) (t + I)).sleeps + 1 } := by
  rw [pollGo]
  have hmiss2 : ¬ (c < (listEmailsNormalize raw).total ∧
      0 < (listEmailsNormalize raw).data.length) := by
    simpa [listEmailsNormalize] using hmiss
  simp [h, ho, hmiss2]

/-- Running pollGo across N consecutive non-qualifying checks that all
happen before the deadline: N calls and N sleeps accumulate and the loop
continues at call index k + N and time t + N * I. -/
theorem pollGo_skipN (oracle : Nat → Except VanishError RawPaginatedEmailList)
    (c I : Nat) (hI : 0 < I) (deadline : Nat) :
    ∀ N k t,
      (∀ j, j < N → ∃ raw, oracle (k + j) = .ok raw ∧
        ¬ (c < raw.total ∧ 0 < raw.data.length)) →
      t + N * I < deadline →
      pollGo oracle c I hI deadline k t =
        { result := (pollGo oracle c I hI deadline (k + N) (t + N * I)).result
        , log := List.replicate N { limit := some 1 } ++
            (pollGo oracle c I hI deadline (k + N) (t + N * I)).log
        , sleeps := N + (pollGo oracle c I hI deadline (k + N) (t + N * I)).sleeps } := by
  intro N
  induction N with
  | zero =>
    intro k t _ _
    simp
  | succ n ih =>
    intro k t hmiss hdl
    obtain ⟨raw0, ho0, hm0⟩ := hmiss 0 (Nat.succ_pos n)
    have ht : t < deadline := lt_of_le_of_lt (Nat.le_add_right t _) hdl
    rw [Nat.succ_mul] at hdl
    have hdl2 : t + I + n * I < deadline := by linarith
    rw [pollGo_miss oracle c I hI deadline k t ht raw0 (by simpa using ho0) hm0]
    have hrec := ih (k + 1) (t + I)
      (fun j hj => by
        obtain ⟨raw, h1, h2⟩ := hmiss (j + 1) (by omega)
        exact ⟨raw, by rw [show k + 1 + j = k + (j + 1) by omega]; exact h1, h2⟩)
      hdl2
    rw [hrec]
    have e1 : k + 1 + n = k + (n + 1) := by omega
    have e2 : t + I + n * I = t + (n + 1) * I := by rw [Nat.succ_mul]; ring
    rw [e1, e2]
    simp [List.replicate_succ, Nat.add_comm, Nat.add_left_comm]
    omega

/-- Running pollGo when no check ever qualifies: the loop returns null
after exactly the ceiling of (deadline - t) / I calls and as many sleeps. -/
theorem pollGo_exhaust (oracle : Nat → Except VanishError RawPaginatedEmailList)
    (c I : Nat) (hI : 0 < I) (deadline : Nat)
    (hnever : ∀ k, ∃ raw, oracle k = .ok raw ∧
      ¬ (c < raw.total ∧ 0 < raw.data.length)) :
    ∀ t k, pollGo oracle c I hI deadline k t =
      { result := .ok none
      , log := List.replicate ((deadline - t + I - 1) / I) { limit := some 1 }
      , sleeps := (deadline - t + I - 1) / I } := by
  suffices h : ∀ n t k, deadline - t = n →
      pollGo oracle c I hI deadline k t =
        { result := .ok none
        , log := List.replicate ((deadline - t + I - 1) / I) { limit := some 1 }
        , sleeps := (deadline - t + I - 1) / I } by
    intro t k
    exact h (deadline - t) t k rfl
  intro n
  induction n using Nat.strong_induction_on with
  | _ n ih =>
    intro t k hn
    by_cases ht : t < deadline
    · obtain ⟨raw, ho, hm⟩ := hnever k
      rw [pollGo_miss oracle c I hI deadline k t ht raw ho hm]
      have hlt : deadline - (t + I) < n := by omega
      rw [ih _ hlt (t + I) (k + 1) rfl]
      have harith : (deadline - t + I - 1) / I = (deadline - (t + I) + I - 1) / I + 1 := by
        have h1 : deadline - t + I - 1 = (deadline - t - 1) + I := by omega
        rw [h1, Nat.add_div_right _ hI]
        by_cases hge : I ≤ deadline - t
        · have h2 : deadline - (t + I) + I - 1 = deadline - t - 1 := by omega
          rw [h2]
        · have h2 : deadline - (t + I) = 0 := by omega
          rw [h2]
          rw [Nat.div_eq_of_lt (by omega), Nat.div_eq_of_lt (by omega)]
      rw [harith, List.replicate_succ]
    · rw [pollGo_stop oracle c I hI deadline k t ht]
      have h0 : deadline - t = 0 := by omega
      rw [h0]
      rw [Nat.div_eq_of_lt (by omega)]
      simp

/-- Claim C1: for every baseline count C, timeout T > 0 and interval I > 0
(the mailbox address is abstracted into the oracle giving each listEmails
call its outcome), if the listing endpoint returns total = C with any
items on each of the first N checks and total = C + 1 with at least one
item on check N + 1, and check N + 1 begins before the deadline now0 + T,
then pollForEmails performs exactly N + 1 listEmails calls, each with
limit 1, and returns the first item of the (N + 1)-th response. -/
theorem pollForEmails_hit_returns_first_item
    (oracle : Nat → Except VanishError RawPaginatedEmailList)
    (C T I N now0 : Nat) (_hT : 0 < T) (hI : 0 < I)
    (hmiss : ∀ j, j < N → ∃ raw, oracle j = .ok raw ∧ raw.total = C)
    (rawN : RawPaginatedEmailList) (hhit : oracle N = .ok rawN)
    (htot : rawN.total = C + 1) (hne : rawN.data ≠ [])
    (hdl : now0 + N * I < now0 + T) :
    pollForEmails oracle T I hI C now0 =
      { result := .ok ((listEmailsNormalize rawN).data.head?)
      , log := List.replicate (N + 1) { limit := some 1 }
      , sleeps := N } ∧
    ∀ x xs, rawN.data = x :: xs →
      (listEmailsNormalize rawN).data.head? = some (normalizeSummary x) := by
  constructor
  · unfold pollForEmails
    rw [pollGo_skipN oracle C I hI (now0 + T) N 0 now0
      (fun j hj => by
        obtain ⟨raw, h1, h2⟩ := hmiss j hj
        exact ⟨raw, by simpa using h1, by omega⟩)
      hdl]
    rw [pollGo_hit oracle C I hI (now0 + T) (0 + N) (now0 + N * I) hdl rawN
      (by simpa using hhit) (by omega)
      (by cases hd : rawN.data with
        | nil => exact absurd hd hne
        | cons x xs => simp [hd])]
    simp [List.replicate_succ']
  · intro x xs hx
    simp [listEmailsNormalize, hx]

/-- Witness for C1: with an endpoint that misses twice and hits on the
third check, polling with timeout 30, interval 10 and baseline 0 from
clock 0 makes three limit-1 calls, sleeps twice, and returns the
normalized new message. -/
theorem pollForEmails_hit_returns_first_item_witness :
    pollForEmails sampleHitOracle 30 10 (by decide) 0 0 =
      { result := .ok (some (normalizeSummary sampleRawSummary))
      , log := List.replicate 3 { limit := some 1 }
      , sleeps := 2 } := by
  have h := pollForEmails_hit_returns_first_item sampleHitOracle 0 30 10 2 0
    (by decide) (by decide)
    (fun j hj => ⟨{ data := [], nextCursor := none, total := 0 }, by
        interval_cases j <;> rfl, rfl⟩)
    { data := [sampleRawSummary], nextCursor := none, total := 1 }
    rfl rfl (by decide) (by decide)
  rw [h.1]
  rfl

/-- Claim C2: for every baseline count C, timeout T and interval I > 0, if
the listing endpoint always reports total = C, pollForEmails terminates,
returns null as a non-error result, and issues at most the ceiling of
T / I listEmails calls. -/
theorem pollForEmails_exhaust_returns_null_bounded
    (oracle : Nat → Except VanishError RawPaginatedEmailList)
    (C T I now0 : Nat) (hI : 0 < I)
    (hsame : ∀ k, ∃ raw, oracle k = .ok raw ∧ raw.total = C) :
    (pollForEmails oracle T I hI C now0).result = .ok none ∧
    (pollForEmails oracle T I hI C now0).log.length ≤ (T + I - 1) / I := by
  have hnever : ∀ k, ∃ raw, oracle k = .ok raw ∧
      ¬ (C < raw.total ∧ 0 < raw.data.length) := by
    intro k
    obtain ⟨raw, h1, h2⟩ := hsame k
    exact ⟨raw, h1, by omega⟩
  unfold pollForEmails
  rw [pollGo_exhaust oracle C I hI (now0 + T) hnever now0 0]
  have ht : now0 + T - now0 = T := by omega
  rw [ht]
  exact ⟨rfl, by simp⟩

/-- Witness for C2: against an endpoint that always reports total 5, a
poll with baseline 5, timeout 7, interval 3 returns null with at most
ceil(7 / 3) = 3 calls. -/
theorem pollForEmails_exhaust_returns_null_bounded_witness :
    (pollForEmails sampleEmptyOracle 7 3 (by decide) 5 100).result = .ok none ∧
    (pollForEmails sampleEmptyOracle 7 3 (by decide) 5 100).log.length ≤ (7 + 3 - 1) / 3 :=
  pollForEmails_exhaust_returns_null_bounded sampleEmptyOracle 5 7 3 100 (by decide)
    (fun _ => ⟨{ data := [], nextCursor := none, total := 5 }, rfl, rfl⟩)

/-- Claim C6: if the first N checks do not qualify and check N + 1 (made
before the deadline) throws a VanishError, pollForEmails propagates that
same error at once: exactly N + 1 calls, N sleeps (none after the failing
call), and no conversion to a null result. -/
theorem pollForEmails_propagates_listEmails_error
    (oracle : Nat → Except VanishError RawPaginatedEmailList)
    (C T I N now0 : Nat) (hI : 0 < I) (e : VanishError)
    (hmiss : ∀ j, j < N → ∃ raw, oracle j = .ok raw ∧
      ¬ (C < raw.total ∧ 0 < raw.data.length))
    (herr : oracle N = .error e)
    (hdl : now0 + N * I < now0 + T) :
    pollForEmails oracle T I hI C now0 =
      { result := .error e
      , log := List.replicate (N + 1) { limit := some 1 }
      , sleeps := N } := by
  unfold pollForEmails
  rw [pollGo_skipN oracle C I hI (now0 + T) N 0 now0
    (fun j hj => by
      obtain ⟨raw, h1, h2⟩ := hmiss j hj
      exact ⟨raw, by simpa using h1, h2⟩)
    hdl]
  rw [pollGo_error oracle C I hI (now0 + T) (0 + N) (now0 + N * I) hdl e
    (by simpa using herr)]
  simp [List.replicate_succ']

/-- Witness for C6: an endpoint that misses once then throws makes the
poll (timeout 20, interval 10) stop after the second call with that very
error, having slept exactly once. -/
theorem pollForEmails_propagates_listEmails_error_witness :
    pollForEmails sampleErrorOracle 20 10 (by decide) 0 0 =
      { result := .error { message := "Request failed: socket hang up", statusCode := none }
      , log := List.replicate 2 { limit := some 1 }
      , sleeps := 1 } :=
  pollForEmails_propagates_listEmails_error sampleErrorOracle 0 20 10 1 0
    (by decide)
    { message := "Request failed: socket hang up", statusCode := none }
    (fun j hj => ⟨{ data := [], nextCursor := none, total := 0 }, by
        interval_cases j
        rfl, by decide⟩)
    rfl (by decide)

/-- Counterexample to claim C3 as stated: a 404 response whose body is
present and parses as the JSON object with no fields still yields the
status text as the message, although the claim allows the fallback only
when the body is absent or unparsable; the parsed body has no error
field at all. -/
theorem requestResult_fallback_despite_parsable_body :
    requestResult (.response 404 "Not Found" (.ok (Json.obj []))) =
      .error { message := "Not Found", statusCode := some 404 } ∧
    jsGetField (Json.obj []) "error" = none :=
  ⟨rfl, rfl⟩

/-- Claim C3 as amended: on a non-success status the operation fails with
a VanishError carrying that status; the message is the JSON error body's
error field whenever that field exists and is truthy, and falls back to
the status's reason phrase when the body is absent, unparsable, or its
error field is absent or falsy. -/
theorem requestResult_nonOk_error_mapping
    (status : Nat) (statusText : String) (jsonBody : Except String Json)
    (hns : responseOk status = false) :
    ∃ msg, requestResult (.response status statusText jsonBody) =
        .error { message := msg, statusCode := some status } ∧
      (∀ b v, jsonBody = .ok b → jsGetField b "error" = some v →
        jsTruthy v = true → msg = jsToString v) ∧
      ((∀ b, jsonBody = .ok b → ∀ v, jsGetField b "error" = some v →
        jsTruthy v = false) → msg = statusText) := by
  refine ⟨errorResponseMessage jsonBody.toOption statusText, ?_, ?_, ?_⟩
  · simp [requestResult, hns, nonOkError]
  · intro b v hb hv htr
    subst hb
    simp [Except.toOption, errorResponseMessage, hv, htr]
  · intro hall
    cases jsonBody with
    | error d => simp [Except.toOption, errorResponseMessage]
    | ok b =>
      cases heq : jsGetField b "error" with
      | none => simp [Except.toOption, errorResponseMessage, heq]
      | some v => simp [Except.toOption, errorResponseMessage, heq, hall b rfl v heq]

/-- Witness for C3: a 404 with body parsed from the error object carrying
"bad id" maps to a VanishError with message "bad id" and status 404. -/
theorem requestResult_nonOk_error_mapping_witness :
    requestResult (.response 404 "Not Found"
        (.ok (Json.obj [("error", Json.str "bad id")]))) =
      .error { message := "bad id", statusCode := some 404 } := by
  obtain ⟨msg, h1, h2, _⟩ := requestResult_nonOk_error_mapping 404 "Not Found"
    (.ok (Json.obj [("error", Json.str "bad id")])) rfl
  rw [h2 (Json.obj [("error", Json.str "bad id")]) (Json.str "bad id") rfl rfl rfl] at h1
  exact h1

/-- Claim C4: a query-parameter entry survives into the query string
exactly when its value is defined, so falsy-but-defined values such as 0
or the empty string are kept; when every entry is undefined no question
mark is appended at all, and otherwise the url is the path followed by a
question mark and the serialization of exactly the defined entries. -/
theorem mkUrl_query_filters_undefined (base path : String)
    (ps : List (String × ParamVal)) :
    (∀ p, p ∈ ps → (p ∈ queryEntries ps ↔ p.2 ≠ ParamVal.undefined)) ∧
    ((∀ p, p ∈ ps → p.2 = ParamVal.undefined) →
      mkUrl base path (some ps) = base ++ path) ∧
    ((∃ p, p ∈ ps ∧ p.2 ≠ ParamVal.undefined) →
      mkUrl base path (some ps) =
        base ++ path ++ "?" ++ renderSearchParams (queryEntries ps)) := by
  have hdef : ∀ v : ParamVal, isDefinedParam v = true ↔ v ≠ ParamVal.undefined := by
    intro v
    cases v <;> simp [isDefinedParam]
  refine ⟨?_, ?_, ?_⟩
  · intro p hp
    rw [queryEntries, List.mem_filter]
    constructor
    · intro h
      exact (hdef p.2).mp h.2
    · intro h
      exact ⟨hp, (hdef p.2).mpr h⟩
  · intro hall
    have hnil : queryEntries ps = [] := by
      rw [queryEntries, List.filter_eq_nil_iff]
      intro p hp
      simp [hall p hp, isDefinedParam]
    simp [mkUrl, hnil]
  · intro hex
    obtain ⟨p, hp, hpd⟩ := hex
    have hmem : p ∈ queryEntries ps := by
      rw [queryEntries, List.mem_filter]
      exact ⟨hp, (hdef p.2).mpr hpd⟩
    have hne : queryEntries ps ≠ [] := by
      intro h
      rw [h] at hmem
      cases hmem
    have hpos : 0 < (queryEntries ps).length := List.length_pos.mpr hne
    simp [mkUrl, hpos]

/-- Witness for C4: with limit 0, an undefined cursor and an empty q, the
url keeps limit=0 and q= and drops cursor. -/
theorem mkUrl_query_filters_undefined_witness :
    mkUrl "http://h" "/p"
        (some [("limit", ParamVal.num 0), ("cursor", ParamVal.undefined), ("q", ParamVal.str "")]) =
      "http://h" ++ "/p" ++ "?" ++ renderSearchParams (queryEntries
        [("limit", ParamVal.num 0), ("cursor", ParamVal.undefined), ("q", ParamVal.str "")]) ∧
    mkUrl "http://h" "/p"
        (some [("limit", ParamVal.num 0), ("cursor", ParamVal.undefined), ("q", ParamVal.str "")]) =
      "http://h/p?limit=0&q=" := by
  constructor
  · exact (mkUrl_query_filters_undefined "http://h" "/p" _).2.2
      ⟨("limit", ParamVal.num 0), by decide, by decide⟩
  · rfl

/-- Counterexample to claim C5 as stated: a configuration whose apiKey is
set to the empty string is a configuration with a credential set, yet the
request carries no Authorization header, because the code guards the
header on JavaScript truthiness of the key rather than on its presence. -/
theorem mkRequest_empty_apiKey_no_authorization :
    (mkRequest { baseUrl := "http://h", apiKey := some "", timeout := 30000 }
      "GET" "/domains" none none).headers = [("Content-Type", "application/json")] ∧
    ("Authorization", "Bearer " ++ "") ∉
      (mkRequest { baseUrl := "http://h", apiKey := some "", timeout := 30000 }
        "GET" "/domains" none none).headers :=
  ⟨rfl, by decide⟩

/-- Claim C5 as amended: every request built for a client whose apiKey is
a non-empty string carries Authorization: Bearer followed by that key;
for a client with no apiKey, or with the empty-string apiKey, no header
named Authorization is present at all.  Every operation of the client
builds its request through mkRequest, so this covers each of them. -/
theorem mkRequest_authorization_iff_nonempty_key (client : VanishClient)
    (method path : String) (params : Option (List (String × ParamVal)))
    (body : Option Json) :
    (∀ k, client.apiKey = some k → k ≠ "" →
      ("Authorization", "Bearer " ++ k) ∈
        (mkRequest client method path params body).headers) ∧
    (client.apiKey = none ∨ client.apiKey = some "" →
      ("Authorization", "Bearer " ++ client.apiKey.getD "") ∉
        (mkRequest client method path params body).headers ∧
      ∀ q, q ∈ (mkRequest client method path params body).headers → q.1 ≠ "Authorization") := by
  constructor
  · intro k hk hne
    simp [mkRequest, buildHeaders, apiKeyTruthy, hk, hne]
  · intro h
    rcases h with h | h <;>
      simp [mkRequest, buildHeaders, apiKeyTruthy, h]

/-- Witness for C5: with key k1 the bearer header is present; with no key
it is absent. -/
theorem mkRequest_authorization_iff_nonempty_key_witness :
    ("Authorization", "Bearer " ++ "k1") ∈
      (mkRequest { baseUrl := "http://h", apiKey := some "k1", timeout := 30000 }
        "GET" "/domains" none none).headers ∧
    ("Authorization", "Bearer " ++ (none : Option String).getD "") ∉
      (mkRequest { baseUrl := "http://h", apiKey := none, timeout := 30000 }
        "GET" "/domains" none none).headers :=
  ⟨(mkRequest_authorization_iff_nonempty_key
      { baseUrl := "http://h", apiKey := some "k1", timeout := 30000 }
      "GET" "/domains" none none).1 "k1" rfl (by decide),
    ((mkRequest_authorization_iff_nonempty_key
      { baseUrl := "http://h", apiKey := none, timeout := 30000 }
      "GET" "/domains" none none).2 (Or.inl rfl)).1⟩

/-- Claim C7: the only data transformation of list and detail responses
is the receivedAt conversion; every other field of every returned entity
passes through unchanged, re-normalizing an already-normalized date value
yields an equal value, and the example wire timestamp is converted to the
date value denoting that very instant, checked against an independent
closed-form calendar computation. -/
theorem listEmails_normalization_only_receivedAt
    (r : RawPaginatedEmailList) (d : RawEmailDetail) (e : RawEmailSummary)
    (x : JSDate) (s : String) :
    (listEmailsNormalize r).nextCursor = r.nextCursor ∧
    (listEmailsNormalize r).total = r.total ∧
    (listEmailsNormalize r).data = r.data.map normalizeSummary ∧
    (normalizeSummary e).id = e.id ∧
    (normalizeSummary e).fromAddr = e.fromAddr ∧
    (normalizeSummary e).subject = e.subject ∧
    (normalizeSummary e).textPreview = e.textPreview ∧
    (normalizeSummary e).hasAttachments = e.hasAttachments ∧
    (normalizeSummary e).receivedAt = jsNewDate (.fromString e.receivedAt) ∧
    (normalizeDetail d).id = d.id ∧
    (normalizeDetail d).fromAddr = d.fromAddr ∧
    (normalizeDetail d).toAddrs = d.toAddrs ∧
    (normalizeDetail d).subject = d.subject ∧
    (normalizeDetail d).html = d.html ∧
    (normalizeDetail d).text = d.text ∧
    (normalizeDetail d).hasAttachments = d.hasAttachments ∧
    (normalizeDetail d).attachments = d.attachments ∧
    (normalizeDetail d).receivedAt = jsNewDate (.fromString d.receivedAt) ∧
    jsNewDate (.fromDate x) = x ∧
    jsNewDate (.fromDate (jsNewDate (.fromString s))) = jsNewDate (.fromString s) ∧
    jsNewDate (.fromString "2024-01-01T00:00:00.000Z") =
      .valid (specEpochMs 2024 1 1 0 0 0 0) ∧
    specEpochMs 2024 1 1 0 0 0 0 = 1704067200000 := by
  refine ⟨rfl, rfl, rfl, rfl, rfl, rfl, rfl, rfl, rfl, rfl, rfl, rfl, rfl,
    rfl, rfl, rfl, rfl, rfl, rfl, rfl, ?_, by decide⟩
  decide

/-- Claim C8: the abort raised by the timeout maps to a VanishError with
the fixed message Request timeout and no status code, and every other
transport failure maps to a VanishError with no status code whose message
wraps the failure description. -/
theorem requestResult_timeout_and_transport_errors (d : String) :
    requestResult .abort =
      .error { message := "Request timeout", statusCode := none } ∧
    requestResult (.failure d) =
      .error { message := "Request failed: " ++ d, statusCode := none } :=
  ⟨rfl, rfl⟩

/-- Claim C9: generateEmail sends no body exactly when both options are
absent; with at least one option present the options object is serialized
as the JSON body; the request is a POST to /mailbox and the operation
returns the email property of the response. -/
theorem generateEmailRequest_body_iff_options (client : VanishClient)
    (o : GenerateEmailOptions) (s : String) :
    ((generateEmailRequest client o).body = none ↔
      o.domain = none ∧ o.prefixOpt = none) ∧
    ((o.domain ≠ none ∨ o.prefixOpt ≠ none) →
      (generateEmailRequest client o).body =
        some (jsonSerialize (generateOptionsJson o))) ∧
    (generateEmailRequest client o).method = "POST" ∧
    (generateEmailRequest client o).url = client.baseUrl ++ "/mailbox" ∧
    generateEmailValue (Json.obj [("email", Json.str s)]) = some (Json.str s) := by
  obtain ⟨od, op⟩ := o
  refine ⟨?_, ?_, rfl, rfl, rfl⟩
  · cases od <;> cases op <;>
      simp [generateEmailRequest, mkRequest, generateOptionsKeys,
        generateOptionsJson, jsTruthy]
  · intro h
    cases od <;> cases op <;>
      simp_all [generateEmailRequest, mkRequest, generateOptionsKeys,
        generateOptionsJson, jsTruthy]

/-- Witness for C9: a domain-only options object is serialized as the
body, and the empty options object sends no body. -/
theorem generateEmailRequest_body_iff_options_witness :
    (generateEmailRequest { baseUrl := "http://h", apiKey := none, timeout := 30000 }
        { domain := some "vanish.host", prefixOpt := none }).body =
      some (jsonSerialize (generateOptionsJson
        { domain := some "vanish.host", prefixOpt := none })) ∧
    (generateEmailRequest { baseUrl := "http://h", apiKey := none, timeout := 30000 }
        { domain := none, prefixOpt := none }).body = none := by
  constructor
  · exact (generateEmailRequest_body_iff_options
      { baseUrl := "http://h", apiKey := none, timeout := 30000 }
      { domain := some "vanish.host", prefixOpt := none } "e").2.1
      (Or.inl (by decide))
  · exact (generateEmailRequest_body_iff_options
      { baseUrl := "http://h", apiKey := none, timeout := 30000 }
      { domain := none, prefixOpt := none } "e").1.mpr ⟨rfl, rfl⟩

/-- Claim C10: the mailbox address is percent-encoded before being inlined
into the path by listEmails and deleteMailbox, while the email id and
attachment id arguments of getEmail, getAttachment and deleteEmail are
inlined verbatim, so an id containing a slash changes the requested path;
the final two conjuncts exhibit the slash being encoded for addresses and
left intact for ids. -/
theorem request_paths_encoding (client : VanishClient)
    (address emailId attachmentId : String) (options : ListEmailsOptions) :
    (∃ suffix, (listEmailsRequest client address options).url =
      client.baseUrl ++ "/mailbox/" ++ encodeURIComponent address ++ suffix) ∧
    (listEmailsRequest client address {}).url =
      client.baseUrl ++ "/mailbox/" ++ encodeURIComponent address ∧
    (deleteMailboxRequest client address).url =
      client.baseUrl ++ "/mailbox/" ++ encodeURIComponent address ∧
    (getEmailRequest client emailId).url =
      client.baseUrl ++ "/email/" ++ emailId ∧
    (getAttachmentRequest client emailId attachmentId).url =
      client.baseUrl ++ "/email/" ++ emailId ++ "/attachments/" ++ attachmentId ∧
    (deleteEmailRequest client emailId).url =
      client.baseUrl ++ "/email/" ++ emailId ∧
    encodeURIComponent "a/b" = "a%2Fb" ∧ ("a%2Fb" : String) ≠ "a/b" := by
  refine ⟨?_, ?_, ?_, ?_, ?_, ?_, by decide, by decide⟩
  · by_cases h : 0 < (queryEntries
        [("limit", optNumParam options.limit), ("cursor", optStrParam options.cursor)]).length
    · exact ⟨"?" ++ renderSearchParams (queryEntries
        [("limit", optNumParam options.limit), ("cursor", optStrParam options.cursor)]),
        by simp [listEmailsRequest, mkRequest, mkUrl, h, String.append_assoc]⟩
    · exact ⟨"", by simp [listEmailsRequest, mkRequest, mkUrl, h, String.append_assoc]⟩
  · simp [listEmailsRequest, mkRequest, mkUrl, queryEntries, optNumParam,
      optStrParam, isDefinedParam, String.append_assoc]
  · simp [deleteMailboxRequest, mkRequest, mkUrl, String.append_assoc]
  · simp [getEmailRequest, mkRequest, mkUrl, String.append_assoc]
  · simp [getAttachmentRequest, mkRequest, mkUrl, String.append_assoc]
  · simp [deleteEmailRequest, mkRequest, mkUrl, String.append_assoc]
